import Mathlib

/-!
Shallow embedding of the GraphQL todo service in src/main.go.

The code of the repository itself (the resolvers of rootQuery and
rootMutation, the serveGraphQL handler, the seed data of init and the
bootstrap steps of main) is translated directly.  The xorm engine and the
graphql library are external collaborators whose behaviour is modelled from
the store-adapter contract of spec section 4.3 and the GraphQL validation
convention of spec sections 4.2 and 7; those definitions carry a doc
comment saying so.
-/

/-- A dynamically typed GraphQL argument value, standing in for the
untyped interface values held by params.Args in the Go resolvers. -/
inductive GQLValue where
  | int (n : Int)
  | str (s : String)
  | bool (b : Bool)
deriving Repr, DecidableEq

/-- The Todo struct of src/main.go lines 21-26: identifier, text,
completion flag, and the xorm optimistic-locking version counter. -/
structure Todo where
  Id : Int
  Text : String
  Done : Bool
  Version : Int
deriving Repr, DecidableEq

/-- The mutable state of the server: the rows persisted in the sqlite
store (test.db) and the package-level in-memory slice TodoList declared at
src/main.go line 28. -/
structure ServerState where
  store : List Todo
  TodoList : List Todo
deriving Repr, DecidableEq

/-- Look an argument up in the args map by name. -/
def argLookup (args : List (String × GQLValue)) (k : String) : Option GQLValue :=
  args.lookup k

/-- The Go string type assertion with the ok flag discarded: yields the
zero value on failure (src/main.go line 85). -/
def castString : Option GQLValue → String
  | some (GQLValue.str s) => s
  | _ => ""

/-- The Go bool type assertion with the ok flag discarded
(src/main.go line 124). -/
def castBool : Option GQLValue → Bool
  | some (GQLValue.bool b) => b
  | _ => false

/-- The Go int64 type assertion with the ok flag discarded
(src/main.go line 125). -/
def castInt : Option GQLValue → Int
  | some (GQLValue.int n) => n
  | _ => 0

/-- The Go int64 type assertion with the ok flag checked
(src/main.go line 168). -/
def castIntChecked : Option GQLValue → Option Int
  | some (GQLValue.int n) => some n
  | _ => none

/-- Modelled from the spec: the getByID capability of the store adapter
(spec 4.3), i.e. the external xorm call engine.Get with the Id column as
the condition.  Returns the first persisted row whose identifier
matches. -/
def engineGetById (store : List Todo) (id : Int) : Option Todo :=
  store.find? (fun t => t.Id == id)

/-- Modelled from the spec: the updateColumns capability of the store
adapter (spec 4.3), i.e. the external xorm call engine.Id(id).Update with a
struct carrying the done flag: a partial update writing the done column of
the rows whose identifier matches, with the store-side version increment of
optimistic locking (spec section 3). -/
def engineUpdateDone (store : List Todo) (id : Int) (done : Bool) : List Todo :=
  store.map (fun t =>
    if t.Id == id then { t with Done := done, Version := t.Version + 1 } else t)

/-- The zero-value Todo literal returned at src/main.go line 178. -/
def emptyTodo : Todo := { Id := 0, Text := "", Done := false, Version := 0 }

/-- The createTodo resolver, src/main.go lines 82-106: casts the Text
argument, uses the hard-coded new identifier 4, appends the new record to
the in-memory TodoList only, and returns it with a nil error. -/
def createTodoResolve (s : ServerState) (args : List (String × GQLValue)) :
    ServerState × Except String Todo :=
  let text := castString (argLookup args "Text")
  let newID : Int := 4
  let newTodo : Todo := { Id := newID, Text := text, Done := false, Version := 0 }
  ({ s with TodoList := s.TodoList ++ [newTodo] }, Except.ok newTodo)

/-- The updateTodo resolver, src/main.go lines 122-142: casts the Done and
Id arguments, issues a store update of the done column for that id, then
re-fetches the row with engine.Get and returns the fetched value (the
struct is left as built when no row matches). -/
def updateTodoResolve (s : ServerState) (args : List (String × GQLValue)) :
    ServerState × Except String Todo :=
  let doneParam := castBool (argLookup args "Done")
  let idParam := castInt (argLookup args "Id")
  let todo0 : Todo := { Id := idParam, Text := "", Done := doneParam, Version := 0 }
  let store2 := engineUpdateDone s.store idParam doneParam
  let fetched :=
    match engineGetById store2 idParam with
    | some t => t
    | none => todo0
  ({ s with store := store2 }, Except.ok fetched)

/-- The todo resolver, src/main.go lines 166-179: if the Id argument is
present and an integer, fetch by id from the store (the struct keeps its
zero fields when no row matches) and return it; otherwise return the zero
value with a nil error. -/
def todoResolve (s : ServerState) (args : List (String × GQLValue)) :
    ServerState × Except String Todo :=
  match castIntChecked (argLookup args "Id") with
  | some idQuery =>
    let fetched :=
      match engineGetById s.store idQuery with
      | some t => t
      | none => { Id := idQuery, Text := "", Done := false, Version := 0 }
    (s, Except.ok fetched)
  | none => (s, Except.ok emptyTodo)

/-- The todoList resolver, src/main.go lines 188-197: queries every row of
the store with engine.Find but only prints that result, and returns the
package-level in-memory TodoList. -/
def todoListResolve (s : ServerState) : ServerState × List Todo :=
  let _all := s.store
  (s, s.TodoList)

/-- Is the value present and a string, as the non-null String argument
declaration of createTodo requires (src/main.go lines 77-81)? -/
def isStringValue : Option GQLValue → Bool
  | some (GQLValue.str _) => true
  | _ => false

/-- Modelled from the spec: the graphql library validates the non-null Text
argument declared at src/main.go lines 77-81 before the resolver runs;
missing or wrong-typed input is a schema-validation error surfaced before
resolution (spec 4.2), leaving all state untouched. -/
def executeCreateTodo (s : ServerState) (args : List (String × GQLValue)) :
    ServerState × Except String Todo :=
  if isStringValue (argLookup args "Text") then
    createTodoResolve s args
  else
    (s, Except.error "missing required argument Text of type String!")

/-- A GraphQL execution result: optional data plus a list of errors,
as produced by graphql.Do (src/main.go lines 221-224). -/
structure GQLResult where
  data : Option String
  errors : List String
deriving Repr, DecidableEq

/-- The body written to the HTTP response: either the plain-text error
written by sendError or the JSON-encoded GraphQL result. -/
inductive ResponseBody where
  | text (msg : String)
  | json (res : GQLResult)
deriving Repr, DecidableEq

/-- An HTTP response as observed by the client: status code and body. -/
structure HTTPResponse where
  status : Nat
  body : ResponseBody
deriving Repr, DecidableEq

/-- The errors list a client can read out of a response body. -/
def bodyErrors : ResponseBody → List String
  | ResponseBody.json r => r.errors
  | ResponseBody.text _ => []

/-- The serveGraphQL handler, src/main.go lines 208-230: a failed body
decode goes to sendError, which writes status 500 with the error text;
otherwise graphql.Do runs the query and the result is JSON-encoded on the
default 200 status.  The decode itself and graphql.Do are external, so the
handler is parameterised by the decode outcome and by the executor. -/
def serveGraphQL (doQuery : String → GQLResult) (decoded : Except String String) :
    HTTPResponse :=
  match decoded with
  | Except.error e => { status := 500, body := ResponseBody.text e }
  | Except.ok q => { status := 200, body := ResponseBody.json (doQuery q) }

/-- First seed record of init, src/main.go line 40. -/
def todo1 : Todo := { Id := 1, Text := "A todo not to forget", Done := false, Version := 0 }

/-- Second seed record of init, src/main.go line 41. -/
def todo2 : Todo := { Id := 2, Text := "This is the most important", Done := false, Version := 0 }

/-- Third seed record of init, src/main.go line 42. -/
def todo3 : Todo := { Id := 3, Text := "Please do this or else", Done := false, Version := 0 }

/-- The seed data appended to TodoList by init, src/main.go lines 39-44. -/
def seedTodos : List Todo := [todo1, todo2, todo3]

/-- The state after the bootstrap in main, src/main.go lines 241-251: the
seed TodoList is inserted into the store, then main fetches row 1, sets its
Done flag and updates it in the store only — the in-memory TodoList keeps
the original seed records. -/
def initState : ServerState :=
  { store := engineUpdateDone seedTodos 1 true
    TodoList := seedTodos }

/-- A sequence of createTodo calls applied to a state, one per text, as in
the count property of spec section 8. -/
def applyCreates (s : ServerState) (texts : List String) : ServerState :=
  texts.foldl (fun st txt => (createTodoResolve st [("Text", GQLValue.str txt)]).1) s

/-- Fetching by id after a done-column update returns the updated row:
the done flag is overwritten and the version counter is incremented, the
other fields are kept. -/
theorem engineGetById_engineUpdateDone (store : List Todo) (i : Int) (d : Bool) (t : Todo)
    (h : engineGetById store i = some t) :
    engineGetById (engineUpdateDone store i d) i =
      some { t with Done := d, Version := t.Version + 1 } := by
  unfold engineGetById engineUpdateDone at *
  have ht : (t.Id == i) = true := by
    have hx := List.find?_some h
    simpa using hx
  rw [List.find?_map]
  have hcomp : ((fun u : Todo => u.Id == i) ∘ (fun u : Todo =>
      if u.Id == i then { u with Done := d, Version := u.Version + 1 } else u)) =
      (fun u : Todo => u.Id == i) := by
    funext u
    by_cases hu : (u.Id == i) = true <;> simp [Function.comp, hu]
  have hid : t.Id = i := by simpa using ht
  rw [hcomp, h]
  simp [hid]

/-- A done-column update leaves the text column of every row unchanged. -/
theorem engineUpdateDone_map_text (store : List Todo) (i : Int) (d : Bool) :
    (engineUpdateDone store i d).map Todo.Text = store.map Todo.Text := by
  unfold engineUpdateDone
  rw [List.map_map]
  congr 1
  funext u
  by_cases hu : (u.Id == i) = true <;> simp [Function.comp, hu]

/-- A done-column update leaves the identifier column of every row
unchanged. -/
theorem engineUpdateDone_map_id (store : List Todo) (i : Int) (d : Bool) :
    (engineUpdateDone store i d).map Todo.Id = store.map Todo.Id := by
  unfold engineUpdateDone
  rw [List.map_map]
  congr 1
  funext u
  by_cases hu : (u.Id == i) = true <;> simp [Function.comp, hu]

/-- A done-column update keeps every row whose identifier differs. -/
theorem engineUpdateDone_mem_of_ne (store : List Todo) (i : Int) (d : Bool) (u : Todo)
    (hu : u ∈ store) (hne : u.Id ≠ i) :
    u ∈ engineUpdateDone store i d := by
  unfold engineUpdateDone
  have heq : (if (u.Id == i) then { u with Done := d, Version := u.Version + 1 } else u) = u := by
    simp [hne]
  exact heq ▸ List.mem_map_of_mem _ hu

/-- Each createTodo call grows the in-memory TodoList by exactly one
record. -/
theorem applyCreates_TodoList_length (texts : List String) (s : ServerState) :
    (applyCreates s texts).TodoList.length = s.TodoList.length + texts.length := by
  induction texts generalizing s with
  | nil => simp [applyCreates]
  | cons a l ih =>
    show (applyCreates ((createTodoResolve s [("Text", GQLValue.str a)]).1) l).TodoList.length = _
    rw [ih]
    simp [createTodoResolve]
    omega

/-- Claim C1: when the Id argument is the integer i, the Done argument is
the boolean d, and a row with identifier i is persisted, updateTodo
persists a store in which only the done flag of that row is overwritten
(text and identifier columns unchanged, rows with other identifiers kept)
with the version counter incremented by the store, and it returns the
re-fetched stored row — carrying the incremented version — rather than the
in-memory struct it built. -/
theorem updateTodo_persists_and_refetches
    (s : ServerState) (args : List (String × GQLValue)) (i : Int) (d : Bool) (t : Todo)
    (hId : argLookup args "Id" = some (GQLValue.int i))
    (hDone : argLookup args "Done" = some (GQLValue.bool d))
    (hGet : engineGetById s.store i = some t) :
    updateTodoResolve s args =
      ({ s with store := engineUpdateDone s.store i d },
        Except.ok { t with Done := d, Version := t.Version + 1 }) ∧
    engineGetById (engineUpdateDone s.store i d) i =
      some { t with Done := d, Version := t.Version + 1 } ∧
    (engineUpdateDone s.store i d).map Todo.Text = s.store.map Todo.Text ∧
    (engineUpdateDone s.store i d).map Todo.Id = s.store.map Todo.Id ∧
    (∀ u ∈ s.store, u.Id ≠ i → u ∈ engineUpdateDone s.store i d) := by
  refine ⟨?_, engineGetById_engineUpdateDone s.store i d t hGet,
    engineUpdateDone_map_text s.store i d, engineUpdateDone_map_id s.store i d,
    fun u hu hne => engineUpdateDone_mem_of_ne s.store i d u hu hne⟩
  simp [updateTodoResolve, hId, hDone, castBool, castInt,
        engineGetById_engineUpdateDone s.store i d t hGet]

/-- Witness for claim C1 at the bootstrap state with id 2 and done true. -/
theorem updateTodo_persists_and_refetches_witness :
    updateTodoResolve initState [("Id", GQLValue.int 2), ("Done", GQLValue.bool true)] =
      ({ initState with store := engineUpdateDone initState.store 2 true },
        Except.ok { todo2 with Done := true, Version := todo2.Version + 1 }) :=
  (updateTodo_persists_and_refetches initState
    [("Id", GQLValue.int 2), ("Done", GQLValue.bool true)] 2 true todo2 rfl rfl rfl).1

/-- Claim C2: when the id argument is the integer i and a row with
identifier i is persisted, the todo query returns that row, whose
identifier equals i, and leaves the state unchanged. -/
theorem todo_query_returns_record
    (s : ServerState) (args : List (String × GQLValue)) (i : Int) (t : Todo)
    (hId : argLookup args "Id" = some (GQLValue.int i))
    (hGet : engineGetById s.store i = some t) :
    todoResolve s args = (s, Except.ok t) ∧ t.Id = i := by
  constructor
  · simp [todoResolve, hId, castIntChecked, hGet]
  · unfold engineGetById at hGet
    have hx := List.find?_some hGet
    simpa using hx

/-- Witness for claim C2 at the bootstrap state with id 3. -/
theorem todo_query_returns_record_witness :
    todoResolve initState [("Id", GQLValue.int 3)] = (initState, Except.ok todo3) ∧
    todo3.Id = 3 :=
  todo_query_returns_record initState [("Id", GQLValue.int 3)] 3 todo3 rfl rfl

/-- Counterexample to claim C3 as stated: after one createTodo call from
the bootstrap state, todoList returns four records while the store holds
three rows, and the returned list differs from the persisted rows — the
resolver returns the in-memory TodoList, not the store contents. -/
theorem todoList_differs_from_store :
    (todoListResolve (createTodoResolve initState
        [("Text", GQLValue.str "buy milk")]).1).2.length = 4 ∧
    ((createTodoResolve initState [("Text", GQLValue.str "buy milk")]).1).store.length = 3 ∧
    (todoListResolve (createTodoResolve initState [("Text", GQLValue.str "buy milk")]).1).2 ≠
      ((createTodoResolve initState [("Text", GQLValue.str "buy milk")]).1).store := by
  refine ⟨rfl, rfl, ?_⟩
  decide

/-- Claim C3 as amended: todoList returns the package-level in-memory
TodoList, whatever the store holds, and after any sequence of successful
createTodo calls from the bootstrap state its element count equals the
three seed records plus the number of createTodo calls. -/
theorem todoList_returns_in_memory_list (s : ServerState) (texts : List String) :
    todoListResolve s = (s, s.TodoList) ∧
    (todoListResolve (applyCreates initState texts)).2.length = 3 + texts.length := by
  refine ⟨rfl, ?_⟩
  show (applyCreates initState texts).TodoList.length = 3 + texts.length
  rw [applyCreates_TodoList_length]
  simp [initState, seedTodos]

/-- Claim C4, evaluated at the failing input: two successive successful
createTodo calls both return a record with the hard-coded identifier 4, and
the in-memory TodoList then holds two records with identifier 4 — the
identifier-uniqueness invariant the spec states (and whose violation the
spec itself flags as a bug of the reference implementation) is broken. -/
theorem createTodo_duplicate_id :
    (createTodoResolve initState [("Text", GQLValue.str "first")]).2 =
      Except.ok { Id := 4, Text := "first", Done := false, Version := 0 } ∧
    (createTodoResolve (createTodoResolve initState [("Text", GQLValue.str "first")]).1
        [("Text", GQLValue.str "second")]).2 =
      Except.ok { Id := 4, Text := "second", Done := false, Version := 0 } ∧
    ((createTodoResolve (createTodoResolve initState [("Text", GQLValue.str "first")]).1
        [("Text", GQLValue.str "second")]).1.TodoList.filter (fun t => t.Id == 4)).length = 2 :=
  ⟨rfl, rfl, rfl⟩

/-- Claim C5: for any identifier i persisted in the store, updateTodo with
id i and done true followed by the todo query with id i yields a record
with done true (and identifier i). -/
theorem updateTodo_then_todo_done
    (s : ServerState) (i : Int) (t : Todo)
    (hGet : engineGetById s.store i = some t) :
    ∃ u : Todo,
      (todoResolve
          (updateTodoResolve s [("Id", GQLValue.int i), ("Done", GQLValue.bool true)]).1
          [("Id", GQLValue.int i)]).2 = Except.ok u ∧
      u.Done = true ∧ u.Id = i := by
  have hid : t.Id = i := by
    unfold engineGetById at hGet
    have hx := List.find?_some hGet
    simpa using hx
  refine ⟨{ t with Done := true, Version := t.Version + 1 }, ?_, rfl, hid⟩
  have h2 := engineGetById_engineUpdateDone s.store i true t hGet
  simp [todoResolve, updateTodoResolve, castIntChecked, castBool, castInt, argLookup,
        List.lookup, h2]

/-- Witness for claim C5 at the bootstrap state with id 2. -/
theorem updateTodo_then_todo_done_witness :
    ∃ u : Todo,
      (todoResolve
          (updateTodoResolve initState [("Id", GQLValue.int 2), ("Done", GQLValue.bool true)]).1
          [("Id", GQLValue.int 2)]).2 = Except.ok u ∧
      u.Done = true ∧ u.Id = 2 :=
  updateTodo_then_todo_done initState 2 todo2 rfl

/-- Claim C6: after any successful createTodo call with text txt, todoList
includes a record with text txt and done false. -/
theorem createTodo_then_todoList_includes
    (s : ServerState) (txt : String) :
    ∃ r ∈ (todoListResolve (createTodoResolve s [("Text", GQLValue.str txt)]).1).2,
      r.Text = txt ∧ r.Done = false := by
  refine ⟨{ Id := 4, Text := txt, Done := false, Version := 0 }, ?_, rfl, rfl⟩
  simp [todoListResolve, createTodoResolve, castString, argLookup]

/-- Claim C7: when the required Text argument is absent or not a string,
createTodo execution fails with a schema-validation error before the
resolver runs and the whole state — persisted rows included — is
unchanged. -/
theorem createTodo_validation_rejects
    (s : ServerState) (args : List (String × GQLValue))
    (h : isStringValue (argLookup args "Text") = false) :
    executeCreateTodo s args =
      (s, Except.error "missing required argument Text of type String!") := by
  simp [executeCreateTodo, h]

/-- Witness for claim C7 at the bootstrap state with no arguments. -/
theorem createTodo_validation_rejects_witness :
    executeCreateTodo initState [] =
      (initState, Except.error "missing required argument Text of type String!") :=
  createTodo_validation_rejects initState [] rfl

/-- Claim C8: a request whose body fails to decode gets status 500 (not
200) carrying the error text, while a well-formed request gets status 200
whose body reports exactly the errors list of the GraphQL execution
result. -/
theorem serveGraphQL_status_discipline
    (doQuery : String → GQLResult) (e : String) (q : String) :
    serveGraphQL doQuery (Except.error e) = { status := 500, body := ResponseBody.text e } ∧
    (serveGraphQL doQuery (Except.error e)).status ≠ 200 ∧
    (serveGraphQL doQuery (Except.ok q)).status = 200 ∧
    bodyErrors (serveGraphQL doQuery (Except.ok q)).body = (doQuery q).errors :=
  ⟨rfl, by simp [serveGraphQL], rfl, rfl⟩

/-- Claim C9: when the Id argument is absent or not an integer, the todo
query returns the zero-value Todo with no error and leaves the state
unchanged. -/
theorem todo_default_on_bad_id
    (s : ServerState) (args : List (String × GQLValue))
    (h : castIntChecked (argLookup args "Id") = none) :
    todoResolve s args = (s, Except.ok emptyTodo) := by
  simp [todoResolve, h]

/-- Witness for claim C9 with a string-valued Id argument. -/
theorem todo_default_on_bad_id_witness :
    todoResolve initState [("Id", GQLValue.str "b")] = (initState, Except.ok emptyTodo) :=
  todo_default_on_bad_id initState [("Id", GQLValue.str "b")] rfl

/-- Claim C10: for every input, createTodo leaves the persisted store
untouched, appends exactly the new record (hard-coded identifier 4, the
cast Text argument, done false) to the in-memory TodoList, and returns that
record with a nil error — it can never fail at resolution time. -/
theorem createTodo_frame_and_totality
    (s : ServerState) (args : List (String × GQLValue)) :
    (createTodoResolve s args).1.store = s.store ∧
    (createTodoResolve s args).1.TodoList = s.TodoList ++
      [{ Id := 4, Text := castString (argLookup args "Text"), Done := false, Version := 0 }] ∧
    (createTodoResolve s args).2 = Except.ok
      { Id := 4, Text := castString (argLookup args "Text"), Done := false, Version := 0 } :=
  ⟨rfl, rfl, rfl⟩
